import Mathlib

/-!
Verification of the dynamic-model engine of the FastAPI-Server-Template
repository: a shallow embedding of `src/service/dynamic_model_service.py`,
`src/service/dynamic_data_service.py` and the HTTP layer
`src/api/dynamic_models.py`, together with theorems settling the spec
claims about those components.

Caller-supplied payload values are JSON values (the FastAPI layer decodes
request bodies to Python dicts of JSON-decoded values), so the value
universe is modelled by the inductive `Json` below.  Python `None`
(JSON `null`) is `Json.null`.  Python floats are modelled as rationals.
-/

set_option maxRecDepth 4096

namespace FastapiTemplate

/-- A Python value as it appears in a decoded JSON request payload. -/
inductive Json where
  | null : Json
  | b (b : Bool) : Json
  | i (n : Int) : Json
  | f (q : Rat) : Json
  | s (s : String) : Json
  | arr (xs : List Json) : Json
  | obj (kvs : List (String × Json)) : Json

/- Delimiter characters, named via their code points. -/
def quoteC : Char := Char.ofNat 34
def backslashC : Char := Char.ofNat 92
def openBraceC : Char := Char.ofNat 123
def closeBraceC : Char := Char.ofNat 125

def skipWs (cs : List Char) : List Char :=
  cs.dropWhile (fun c => c == ' ' || c == '\t' || c == '\n' || c == '\r')

def isPySpace (c : Char) : Bool :=
  c == ' ' || c == '\t' || c == '\n' || c == '\r' || c == Char.ofNat 11 || c == Char.ofNat 12

/-- Python `str.strip()` on the character list of a string. -/
def pyStrip (cs : List Char) : List Char :=
  ((cs.dropWhile isPySpace).reverse.dropWhile isPySpace).reverse

/-- Python `str.lower()` (ASCII letters, which is all the code relies on). -/
def pyLower (s : String) : String :=
  String.mk (s.toList.map (fun c => if 'A' ≤ c && c ≤ 'Z' then Char.ofNat (c.toNat + 32) else c))

def digitsVal (ds : List Char) : Nat :=
  ds.foldl (fun a c => a * 10 + (c.toNat - 48)) 0

/-- All characters are decimal digits and there is at least one. -/
def digitsToNat (cs : List Char) : Option Nat :=
  if cs.isEmpty then none
  else if cs.all (fun c => c.isDigit) then some (digitsVal cs)
  else none

/-- Embedding of Python `int(s)` on a string: optional surrounding
whitespace, an optional sign, then a non-empty run of decimal digits. -/
def pyParseInt (s : String) : Option Int :=
  match pyStrip s.toList with
  | '+' :: r => (digitsToNat r).map (fun n => (n : Int))
  | '-' :: r => (digitsToNat r).map (fun n => -(n : Int))
  | r => (digitsToNat r).map (fun n => (n : Int))

/-- Ten to an integer power over the rationals, by explicit case split so
that it evaluates by kernel reduction. -/
def pow10Rat : Int → Rat
  | Int.ofNat k => (((10 : Nat) ^ k : Nat) : Rat)
  | Int.negSucc k => 1 / (((10 : Nat) ^ (k + 1) : Nat) : Rat)

/-- Numeric value of a decimal literal: sign, mantissa digits, number of
fractional digits, decimal exponent. -/
def mkRatVal (sgn : Int) (mant : List Char) (fracLen : Nat) (e : Int) : Rat :=
  ((sgn * (digitsVal mant : Int) : Int) : Rat) * pow10Rat (e - (fracLen : Int))

/-- Optional exponent part of a float literal; `none` result means parse
failure, `some e` the exponent (0 when the rest of the input is empty). -/
def parseExpPart : List Char → Option Int
  | [] => some 0
  | c :: r =>
    if c == 'e' || c == 'E' then
      match r with
      | '+' :: r2 => (digitsToNat r2).map (fun n => (n : Int))
      | '-' :: r2 => (digitsToNat r2).map (fun n => -(n : Int))
      | r2 => (digitsToNat r2).map (fun n => (n : Int))
    else none

/-- Embedding of Python `float(s)` on a string: optional whitespace and
sign, then digits with an optional fractional part (at least one digit in
total) and an optional exponent. -/
def pyParseFloat (s : String) : Option Rat :=
  let cs := pyStrip s.toList
  let p : Int × List Char :=
    match cs with
    | '+' :: r => (1, r)
    | '-' :: r => (-1, r)
    | r => (1, r)
  let sgn := p.1
  let ipr := p.2.span (fun c => c.isDigit)
  match ipr.2 with
  | '.' :: r2 =>
    let fpr := r2.span (fun c => c.isDigit)
    if ipr.1.isEmpty && fpr.1.isEmpty then none
    else
      (parseExpPart fpr.2).map (fun e => mkRatVal sgn (ipr.1 ++ fpr.1) fpr.1.length e)
  | r1 =>
    if ipr.1.isEmpty then none
    else (parseExpPart r1).map (fun e => mkRatVal sgn ipr.1 0 e)

/-- Decimal rendering of a rational that came from a float literal,
mirroring Python `str` on floats for exactly representable decimals. -/
def floatRepr (q : Rat) : String :=
  let sgn : List Char := if q < 0 then ['-'] else []
  let a := |q|
  match (List.range 40).find? (fun k => (a * pow10Rat (k : Nat)).den == 1) with
  | some k =>
    let m := (a * pow10Rat (k : Nat)).num.toNat
    let ds := Nat.toDigits 10 m
    if k == 0 then String.mk (sgn ++ ds) ++ (".0")
    else
      let ds := if ds.length ≤ k then List.replicate (k + 1 - ds.length) '0' ++ ds else ds
      String.mk (sgn ++ ds.take (ds.length - k) ++ ['.'] ++ ds.drop (ds.length - k))
  | none => String.mk sgn ++ Nat.repr a.num.toNat ++ ("/") ++ Nat.repr a.den

mutual

/-- Python `repr` of a payload value (used for values nested in
containers; for scalars `str` and `repr` agree except for strings). -/
def pyRepr : Json → String
  | Json.null => ("None")
  | Json.b true => ("True")
  | Json.b false => ("False")
  | Json.i n => toString n
  | Json.f q => floatRepr q
  | Json.s s => ("\x27") ++ s ++ ("\x27")
  | Json.arr xs => ("[") ++ String.intercalate (", ") (pyReprList xs) ++ ("]")
  | Json.obj kvs => ("\x7b") ++ String.intercalate (", ") (pyReprKVs kvs) ++ ("\x7d")

def pyReprList : List Json → List String
  | [] => []
  | x :: xs => pyRepr x :: pyReprList xs

def pyReprKVs : List (String × Json) → List String
  | [] => []
  | (k, v) :: kvs => (("\x27") ++ k ++ ("\x27: ") ++ pyRepr v) :: pyReprKVs kvs

end

/-- Python `str` of a payload value (as interpolated into f-strings). -/
def pyStr : Json → String
  | Json.s s => s
  | v => pyRepr v

/-- Embedding of Python `int(value)`: `none` models the
`ValueError`/`TypeError` raised on inconvertible input. -/
def pyIntOf : Json → Option Int
  | Json.i n => some n
  | Json.f q => some (q.num.tdiv (q.den : Int))
  | Json.b b => some (if b then 1 else 0)
  | Json.s s => pyParseInt s
  | _ => none

/-- Embedding of Python `float(value)`. -/
def pyFloatOf : Json → Option Rat
  | Json.i n => some ((n : Int) : Rat)
  | Json.f q => some q
  | Json.b b => some (if b then 1 else 0)
  | Json.s s => pyParseFloat s
  | _ => none

/-- The boolean branch of `_convert_value`: strings go through the
lower-cased membership test, everything else through Python `bool()`. -/
def pyBoolCoerce : Json → Bool
  | Json.s s => [("true"), ("1"), ("yes"), ("on")].contains (pyLower s)
  | Json.b b => b
  | Json.i n => n != 0
  | Json.f q => q != 0
  | Json.null => false
  | Json.arr xs => !xs.isEmpty
  | Json.obj kvs => !kvs.isEmpty

/-- Hexadecimal digit value, for JSON string escapes. -/
def hexVal (c : Char) : Option Nat :=
  if c.isDigit then some (c.toNat - 48)
  else if 'a' ≤ c && c ≤ 'f' then some (c.toNat - 87)
  else if 'A' ≤ c && c ≤ 'F' then some (c.toNat - 55)
  else none

/-- Simple JSON string escapes. -/
def escDecode (e : Char) : Option Char :=
  if e == quoteC then some quoteC
  else if e == backslashC then some backslashC
  else if e == '/' then some '/'
  else if e == 'n' then some '\n'
  else if e == 't' then some '\t'
  else if e == 'r' then some '\r'
  else if e == 'b' then some (Char.ofNat 8)
  else if e == 'f' then some (Char.ofNat 12)
  else none

/-- Body of a JSON string literal after the opening quote; returns the
decoded characters and the remaining input. -/
def parseJStrChars : Nat → List Char → Option (List Char × List Char)
  | 0, _ => none
  | n + 1, cs =>
    match cs with
    | [] => none
    | c :: r =>
      if c == quoteC then some ([], r)
      else if c == backslashC then
        match r with
        | 'u' :: h1 :: h2 :: h3 :: h4 :: r2 =>
          match hexVal h1, hexVal h2, hexVal h3, hexVal h4 with
          | some a, some b, some c2, some d =>
            (parseJStrChars n r2).map
              (fun p => (Char.ofNat (((a * 16 + b) * 16 + c2) * 16 + d) :: p.1, p.2))
          | _, _, _, _ => none
        | e :: r2 =>
          match escDecode e with
          | some ch => (parseJStrChars n r2).map (fun p => (ch :: p.1, p.2))
          | none => none
        | [] => none
      else (parseJStrChars n r).map (fun p => (c :: p.1, p.2))

/-- Digits at the head of the input (at least one), with their value. -/
def spanDigits (cs : List Char) : Option (Nat × List Char) :=
  let p := cs.span (fun c => c.isDigit)
  if p.1.isEmpty then none else some (digitsVal p.1, p.2)

/-- Optional exponent of a JSON number; `(none, cs)` when no exponent
marker is present. -/
def parseJExpOpt : List Char → Option (Option Int × List Char)
  | [] => some (none, [])
  | c :: r =>
    if c == 'e' || c == 'E' then
      match r with
      | '+' :: r2 => (spanDigits r2).map (fun p => (some ((p.1 : Int)), p.2))
      | '-' :: r2 => (spanDigits r2).map (fun p => (some (-(p.1 : Int)), p.2))
      | r2 => (spanDigits r2).map (fun p => (some ((p.1 : Int)), p.2))
    else some (none, c :: r)

/-- A JSON number: integers stay integral (Python `int`), a fraction or
exponent makes a float. -/
def parseJNum (cs : List Char) : Option (Json × List Char) :=
  let p : Int × List Char :=
    match cs with
    | '-' :: r => (-1, r)
    | r => (1, r)
  let sgn := p.1
  let ipr := p.2.span (fun c => c.isDigit)
  if ipr.1.isEmpty then none
  else
    match ipr.2 with
    | '.' :: r2 =>
      let fpr := r2.span (fun c => c.isDigit)
      if fpr.1.isEmpty then none
      else
        (parseJExpOpt fpr.2).map
          (fun p2 => (Json.f (mkRatVal sgn (ipr.1 ++ fpr.1) fpr.1.length (p2.1.getD 0)), p2.2))
    | r1 =>
      (parseJExpOpt r1).map
        (fun p2 =>
          match p2.1 with
          | none => (Json.i (sgn * (digitsVal ipr.1 : Int)), p2.2)
          | some e => (Json.f (mkRatVal sgn ipr.1 0 e), p2.2))

mutual

/-- Recursive-descent JSON value parser (fuel-indexed), the embedding of
Python `json.loads` used by `_convert_value`. -/
def parseJVal : Nat → List Char → Option (Json × List Char)
  | 0, _ => none
  | n + 1, cs0 =>
    match skipWs cs0 with
    | [] => none
    | c :: r =>
      if c == quoteC then
        (parseJStrChars (r.length + 1) r).map (fun p => (Json.s (String.mk p.1), p.2))
      else if c == '[' then
        match skipWs r with
        | ']' :: r2 => some (Json.arr [], r2)
        | r1 => (parseJElems n r1).map (fun p => (Json.arr p.1, p.2))
      else if c == openBraceC then
        match skipWs r with
        | [] => none
        | c2 :: r2 =>
          if c2 == closeBraceC then some (Json.obj [], r2)
          else (parseJMembers n (c2 :: r2)).map (fun p => (Json.obj p.1, p.2))
      else if c == 'n' then
        match r with
        | 'u' :: 'l' :: 'l' :: r2 => some (Json.null, r2)
        | _ => none
      else if c == 't' then
        match r with
        | 'r' :: 'u' :: 'e' :: r2 => some (Json.b true, r2)
        | _ => none
      else if c == 'f' then
        match r with
        | 'a' :: 'l' :: 's' :: 'e' :: r2 => some (Json.b false, r2)
        | _ => none
      else parseJNum (c :: r)

def parseJElems : Nat → List Char → Option (List Json × List Char)
  | 0, _ => none
  | n + 1, cs =>
    match parseJVal n cs with
    | none => none
    | some (v, r) =>
      match skipWs r with
      | ',' :: r2 =>
        (parseJElems n r2).map (fun p => (v :: p.1, p.2))
      | ']' :: r2 => some ([v], r2)
      | _ => none

def parseJMembers : Nat → List Char → Option (List (String × Json) × List Char)
  | 0, _ => none
  | n + 1, cs =>
    match skipWs cs with
    | [] => none
    | c :: r =>
      if c == quoteC then
        match parseJStrChars (r.length + 1) r with
        | none => none
        | some (k, r1) =>
          match skipWs r1 with
          | ':' :: r3 =>
            match parseJVal n r3 with
            | none => none
            | some (v, r4) =>
              match skipWs r4 with
              | ',' :: r6 =>
                (parseJMembers n r6).map (fun p => ((String.mk k, v) :: p.1, p.2))
              | c2 :: r6 =>
                if c2 == closeBraceC then some ([(String.mk k, v)], r6) else none
              | [] => none
          | _ => none
      else none

end

/-- Embedding of `json.loads` on a whole string: the parsed value with
the entire input consumed, or an error (`json.JSONDecodeError`, a
subclass of `ValueError`). -/
def json_loads (s : String) : Except String Json :=
  match parseJVal (2 * s.length + 4) s.toList with
  | some (v, rest) =>
    if (skipWs rest).isEmpty then Except.ok v else Except.error ("Extra data")
  | none => Except.error ("Expecting value")

/-- The message of the `ValueError` raised by `_convert_value` when
coercion fails. -/
def coercionErrorMsg (field_type : String) (value : Json) : String :=
  ("Invalid value for field type ") ++ field_type ++ (": ") ++ pyStr value

/-- Embedding of `DynamicDataService._convert_value`
(`src/service/dynamic_data_service.py`, lines 180-199). -/
def _convert_value (value : Json) (field_type : String) : Except String Json :=
  if field_type == ("integer") then
    match pyIntOf value with
    | some n => Except.ok (Json.i n)
    | none => Except.error (coercionErrorMsg field_type value)
  else if field_type == ("float") then
    match pyFloatOf value with
    | some q => Except.ok (Json.f q)
    | none => Except.error (coercionErrorMsg field_type value)
  else if field_type == ("boolean") then
    Except.ok (Json.b (pyBoolCoerce value))
  else if field_type == ("json") then
    match value with
    | Json.s s =>
      (match json_loads s with
       | Except.ok v => Except.ok v
       | Except.error _ => Except.error (coercionErrorMsg field_type value))
    | v => Except.ok v
  else Except.ok (Json.s (pyStr value))

/-! ## Schema registry, physical tables and system state

`DynamicModel` / `DynamicField` registry rows (`src/models/dynamic_model.py`),
the caller-facing creation schemas (`src/schemas/dynamic_model.py`), and the
state touched by the services: the registry tables, the declarative
`Base.metadata` table-name registry, and the physical tables of the
storage engine.  Failures of the storage engine (a `CREATE TABLE`, `DROP`
or commit raising) are injected through explicit boolean parameters, one
per engine call whose failure the source code guards with `try/except`. -/

/-- Caller schema `DynamicFieldCreate` (`src/schemas/dynamic_model.py`). -/
structure DynamicFieldCreate where
  name : String
  field_type : String
  is_required : Bool := false
  is_unique : Bool := false
  default_value : Option String := none
  max_length : Option Nat := none
  field_order : Int := 0
  validation_rules : Option Json := none

/-- Caller schema `DynamicModelCreate` (`src/schemas/dynamic_model.py`). -/
structure DynamicModelCreate where
  name : String
  table_name : String
  description : Option String := none
  is_active : Bool := true
  fields : List DynamicFieldCreate

/-- Registry row of table `dynamic_models` (`src/models/dynamic_model.py`). -/
structure DynamicModelRow where
  id : Nat
  name : String
  table_name : String
  description : Option String
  is_active : Bool

/-- Registry row of table `dynamic_fields` (`src/models/dynamic_model.py`). -/
structure DynamicFieldRow where
  id : Nat
  name : String
  field_type : String
  is_required : Bool
  is_unique : Bool
  default_value : Option String
  max_length : Option Nat
  field_order : Int
  validation_rules : Option Json
  model_id : Nat

/-- One row of a materialized physical table: the surrogate key, the two
timestamp columns and the dynamic columns (every declared column is
present; columns not supplied at insert time hold `Json.null`, since the
raw-SQL insert path bypasses any Python-side column default). -/
structure PhysRow where
  id : Nat
  created_at : Nat
  updated_at : Option Nat
  cols : List (String × Json)

/-- A materialized physical table: its dynamic column names (fixed at
creation), the autoincrement counter and the stored rows. -/
structure PhysTable where
  columns : List String
  next_id : Nat
  rows : List PhysRow

/-- The state shared by all requests: committed registry rows, the
id sequences, the declarative metadata table-name registry (`Base.metadata`,
a per-process singleton), the physical tables, and a clock value used for
timestamps. -/
structure SysState where
  models : List DynamicModelRow
  field_rows : List DynamicFieldRow
  next_model_id : Nat
  next_field_id : Nat
  meta_tables : List String
  phys : List (String × PhysTable)
  now : Nat

/-- The physical table name: fixed prefix over the registered table name
(`table_name = f"dynamic_{model.table_name}"`). -/
def physTableName (table_name : String) : String :=
  ("dynamic_") ++ table_name

def updatePhys (l : List (String × PhysTable)) (k : String) (v : PhysTable) :
    List (String × PhysTable) :=
  l.map (fun p =>
    match p.1 == k with
    | true => (k, v)
    | false => p)

/-- Python `data.get(field.name)` on a decoded payload dict followed by
the `value is None` tests of `_validate_data`: an absent key and an
explicit JSON `null` are indistinguishable. -/
def pyGet (data : List (String × Json)) (k : String) : Option Json :=
  match data.lookup k with
  | some Json.null => none
  | some v => some v
  | none => none

namespace DynamicModelService

/-- Embedding of `DynamicModelService._create_database_table`
(`src/service/dynamic_model_service.py`, lines 62-105).  Building the
dynamic declarative class with `type(f"Dynamic{model.name}", (Base,), ...)`
registers the table in the shared `Base.metadata`; if the table name is
already registered there, SQLAlchemy raises
`InvalidRequestError("Table ... is already defined ...")` before any SQL
runs.  Otherwise `table_class.__table__.create(engine, checkfirst=True)`
issues the `CREATE TABLE`, skipping it when the physical table already
exists; `createFails` injects a storage-engine failure of that statement. -/
def _create_database_table (st : SysState) (model : DynamicModelRow)
    (fields : List DynamicFieldCreate) (createFails : Bool) :
    Except String Unit × SysState :=
  let tn := physTableName model.table_name
  if st.meta_tables.contains tn then
    (Except.error (("Table \x27") ++ tn ++ ("\x27 is already defined for this MetaData instance")), st)
  else
    let st1 := { st with meta_tables := st.meta_tables ++ [tn] }
    if createFails then
      (Except.error ("database error during CREATE TABLE"), st1)
    else if (st1.phys.lookup tn).isSome then
      (Except.ok (), st1)
    else
      (Except.ok (),
       { st1 with
         phys := st1.phys ++ [(tn, { columns := fields.map (fun f => f.name), next_id := 1, rows := [] })] })

def buildFieldRows (firstId : Nat) (model_id : Nat) :
    List DynamicFieldCreate → List DynamicFieldRow
  | [] => []
  | f :: fs =>
    { id := firstId, name := f.name, field_type := f.field_type,
      is_required := f.is_required, is_unique := f.is_unique,
      default_value := f.default_value, max_length := f.max_length,
      field_order := f.field_order, validation_rules := f.validation_rules,
      model_id := model_id } ::
      buildFieldRows (firstId + 1) model_id fs

/-- Embedding of `DynamicModelService.create_dynamic_model`
(`src/service/dynamic_model_service.py`, lines 17-60).  The registry rows
are committed (`db.commit()`) BEFORE the physical table is materialized;
a duplicate `name`/`table_name` makes that commit fail against the unique
constraints, which the surrounding `try/except` turns into a rolled-back
no-op.  When materialization raises after the commit, the handler's
`db.rollback()` has nothing pending to undo, so the registry keeps the
committed model and field rows. -/
def create_dynamic_model (st : SysState) (model_data : DynamicModelCreate)
    (materializeFails : Bool) : Except String DynamicModelRow × SysState :=
  if st.models.any (fun m => m.name == model_data.name || m.table_name == model_data.table_name) then
    (Except.error ("Failed to create dynamic model: UNIQUE constraint failed"), st)
  else
    let row : DynamicModelRow :=
      { id := st.next_model_id, name := model_data.name,
        table_name := model_data.table_name, description := model_data.description,
        is_active := model_data.is_active }
    let frows := buildFieldRows st.next_field_id row.id model_data.fields
    let st1 : SysState :=
      { st with
        models := st.models ++ [row],
        field_rows := st.field_rows ++ frows,
        next_model_id := st.next_model_id + 1,
        next_field_id := st.next_field_id + frows.length }
    match _create_database_table st1 row model_data.fields materializeFails with
    | (Except.ok _, st2) => (Except.ok row, st2)
    | (Except.error e, st2) =>
      (Except.error (("Failed to create dynamic model: ") ++ e), st2)

/-- Embedding of `DynamicModelService.get_all_dynamic_models`
(`src/service/dynamic_model_service.py`, lines 122-125): the query is
`db.query(DynamicModel).filter(DynamicModel.is_active == True).all()`. -/
def get_all_dynamic_models (st : SysState) : List DynamicModelRow :=
  st.models.filter (fun m => m.is_active)

/-- Embedding of `DynamicModelService.get_dynamic_model_by_id`. -/
def get_dynamic_model_by_id (st : SysState) (model_id : Nat) :
    Option DynamicModelRow :=
  st.models.find? (fun m => m.id == model_id)

/-- The inline `DROP TABLE IF EXISTS` of `delete_dynamic_model`: removes
the physical table when present, a no-op when absent, never an error. -/
def drop_table_if_exists (st : SysState) (tn : String) : SysState :=
  { st with phys := st.phys.filter (fun p => p.1 != tn) }

/-- Embedding of `DynamicModelService.delete_dynamic_model`
(`src/service/dynamic_model_service.py`, lines 152-175).  Order of
effects: the `DROP TABLE IF EXISTS` runs first, on its own
connection/commit; then the registry rows are deleted and committed
(cascading to the field rows).  `dropFails` injects a storage failure of
the drop step (nothing has changed yet); `registryDeleteFails` injects a
failure of the registry delete/commit, which `db.rollback()` undoes -- but
the already-committed drop is not undone.  Any failure returns `False`. -/
def delete_dynamic_model (st : SysState) (model_id : Nat)
    (dropFails : Bool) (registryDeleteFails : Bool) : Bool × SysState :=
  match get_dynamic_model_by_id st model_id with
  | none => (false, st)
  | some m =>
    if dropFails then (false, st)
    else
      let st1 := drop_table_if_exists st (physTableName m.table_name)
      if registryDeleteFails then (false, st1)
      else
        (true,
         { st1 with
           models := st1.models.filter (fun x => x.id != m.id),
           field_rows := st1.field_rows.filter (fun f => f.model_id != m.id) })

end DynamicModelService

namespace DynamicDataService

/-- The field definitions of a model, as the `model.fields` relationship
returns them (rows of `dynamic_fields` with this `model_id`, in storage
order). -/
def modelFields (st : SysState) (m : DynamicModelRow) : List DynamicFieldRow :=
  st.field_rows.filter (fun f => f.model_id == m.id)

/-- Embedding of `DynamicDataService._validate_data`
(`src/service/dynamic_data_service.py`, lines 157-178): walk the declared
fields in order; a required field whose value is `None` (absent or JSON
null) raises on create; `None` values are skipped otherwise; present
values are coerced by `_convert_value`; the validated dict keeps the
field order. -/
def _validate_data (fields : List DynamicFieldRow) (data : List (String × Json))
    (is_update : Bool) : Except String (List (String × Json)) :=
  match fields with
  | [] => Except.ok []
  | field :: rest =>
    match pyGet data field.name with
    | none =>
      if field.is_required && !is_update then
        Except.error (("Field \x27") ++ field.name ++ ("\x27 is required"))
      else _validate_data rest data is_update
    | some v =>
      match _convert_value v field.field_type with
      | Except.error e => Except.error e
      | Except.ok cv =>
        match _validate_data rest data is_update with
        | Except.error e => Except.error e
        | Except.ok vs => Except.ok ((field.name, cv) :: vs)

/-- The record dict produced by `SELECT *` row mapping: `id`,
`created_at`, `updated_at`, then every dynamic column. -/
def rowToRecord (r : PhysRow) : List (String × Json) :=
  (("id"), Json.i (r.id : Int)) ::
  (("created_at"), Json.i (r.created_at : Int)) ::
  (("updated_at"), (match r.updated_at with
                    | some t => Json.i (t : Int)
                    | none => Json.null)) ::
  r.cols

def get_model (st : SysState) (model_id : Nat) : Option DynamicModelRow :=
  st.models.find? (fun m => m.id == model_id)

/-- Embedding of `DynamicDataService.get_record`
(`src/service/dynamic_data_service.py`, lines 77-98). -/
def get_record (st : SysState) (model_id : Nat) (record_id : Nat) :
    Except String (Option (List (String × Json))) :=
  match get_model st model_id with
  | none => Except.error ("Failed to get record: Dynamic model not found")
  | some m =>
    let tn := physTableName m.table_name
    match st.phys.lookup tn with
    | none => Except.error (("Failed to get record: no such table: ") ++ tn)
    | some t =>
      match t.rows.find? (fun r => r.id == record_id) with
      | some r => Except.ok (some (rowToRecord r))
      | none => Except.ok none

/-- The row the INSERT of `create_record` stores: fresh autoincrement id,
`created_at` from the server default, `updated_at` NULL, and every
declared column (the columns the INSERT does not name stay NULL, since
the raw-SQL path bypasses Python-side column defaults). -/
def insertedRow (t : PhysTable) (now : Nat) (validated : List (String × Json)) :
    PhysRow :=
  { id := t.next_id, created_at := now, updated_at := none,
    cols := t.columns.map (fun c => (c, (validated.lookup c).getD Json.null)) }

/-- The table after appending the inserted row. -/
def insertedTable (t : PhysTable) (row : PhysRow) : PhysTable :=
  { t with next_id := t.next_id + 1, rows := t.rows ++ [row] }

/-- The system state after the INSERT commits. -/
def afterInsert (st : SysState) (tn : String) (t : PhysTable) (row : PhysRow) :
    SysState :=
  { st with phys := updatePhys st.phys tn (insertedTable t row) }

/-- Embedding of `DynamicDataService.create_record`
(`src/service/dynamic_data_service.py`, lines 17-50): model lookup,
validation, a parameterized INSERT naming exactly the validated columns,
then the created row is read back via `get_record`.  An INSERT with an
empty column list is a SQL syntax error.  Every raised error is re-raised
as `ValueError(f"Failed to create record: ...")`. -/
def create_record (st : SysState) (model_id : Nat) (data : List (String × Json)) :
    Except String (Option (List (String × Json))) × SysState :=
  match get_model st model_id with
  | none => (Except.error ("Failed to create record: Dynamic model not found"), st)
  | some m =>
    match _validate_data (modelFields st m) data false with
    | Except.error e => (Except.error (("Failed to create record: ") ++ e), st)
    | Except.ok validated =>
      match st.phys.lookup (physTableName m.table_name) with
      | none =>
        (Except.error (("Failed to create record: no such table: ") ++
          physTableName m.table_name), st)
      | some t =>
        if validated.isEmpty then
          (Except.error ("Failed to create record: near \x22)\x22: syntax error"), st)
        else
          match get_record
              (afterInsert st (physTableName m.table_name) t
                (insertedRow t st.now validated))
              model_id t.next_id with
          | Except.ok r =>
            (Except.ok r,
             afterInsert st (physTableName m.table_name) t
               (insertedRow t st.now validated))
          | Except.error e =>
            (Except.error (("Failed to create record: ") ++ e),
             afterInsert st (physTableName m.table_name) t
               (insertedRow t st.now validated))

/-- Descending sort by `id`, the embedding of `ORDER BY id DESC`. -/
def sortRowsDesc (rs : List PhysRow) : List PhysRow :=
  rs.insertionSort (fun a b => b.id ≤ a.id)

/-- Embedding of `DynamicDataService.get_all_records`
(`src/service/dynamic_data_service.py`, lines 52-75):
`SELECT * FROM t ORDER BY id DESC LIMIT limit OFFSET skip`. -/
def get_all_records (st : SysState) (model_id : Nat) (skip : Nat) (limit : Nat) :
    Except String (List (List (String × Json))) :=
  match get_model st model_id with
  | none => Except.error ("Failed to get records: Dynamic model not found")
  | some m =>
    let tn := physTableName m.table_name
    match st.phys.lookup tn with
    | none => Except.error (("Failed to get records: no such table: ") ++ tn)
    | some t =>
      Except.ok ((((sortRowsDesc t.rows).drop skip).take limit).map rowToRecord)

/-- The SET clause fragment of the UPDATE statement built by
`update_record`: `f"SET {', '.join(set_clauses)}, updated_at = :updated_at"`. -/
def updateSetFragment (validated : List (String × Json)) : String :=
  ("SET ") ++ String.intercalate (", ") (validated.map (fun p => p.1 ++ (" = :") ++ p.1)) ++
    (", updated_at = :updated_at")

/-- The full UPDATE statement text built by `update_record` (line 115-119,
with the surrounding whitespace of the Python triple-quoted string
normalized away). -/
def updateQuery (tn : String) (validated : List (String × Json)) : String :=
  ("UPDATE ") ++ tn ++ (" ") ++ updateSetFragment validated ++ (" WHERE id = :id")

/-- Embedding of `DynamicDataService.update_record`
(`src/service/dynamic_data_service.py`, lines 100-134).  When no validated
column survives, the generated SET clause is `SET , updated_at = ...`,
whose dangling comma the SQL parser rejects, so executing the statement
raises and the surrounding handler re-raises a `ValueError`; nothing is
written.  Otherwise the named row is updated (also refreshing
`updated_at`) and read back; zero affected rows yield `None` (no-found). -/
def update_record (st : SysState) (model_id : Nat) (record_id : Nat)
    (data : List (String × Json)) :
    Except String (Option (List (String × Json))) × SysState :=
  match get_model st model_id with
  | none => (Except.error ("Failed to update record: Dynamic model not found"), st)
  | some m =>
    let tn := physTableName m.table_name
    match _validate_data (modelFields st m) data true with
    | Except.error e => (Except.error (("Failed to update record: ") ++ e), st)
    | Except.ok validated =>
      if validated.isEmpty then
        (Except.error ("Failed to update record: near \x22,\x22: syntax error"), st)
      else
        match st.phys.lookup tn with
        | none => (Except.error (("Failed to update record: no such table: ") ++ tn), st)
        | some t =>
          match t.rows.find? (fun r => r.id == record_id) with
          | none => (Except.ok none, st)
          | some _ =>
            let t2 : PhysTable :=
              { t with
                rows := t.rows.map (fun r =>
                  if r.id == record_id then
                    { r with
                      updated_at := some st.now,
                      cols := r.cols.map (fun c =>
                        match validated.lookup c.1 with
                        | some v => (c.1, v)
                        | none => c) }
                  else r) }
            let st2 := { st with phys := updatePhys st.phys tn t2 }
            match get_record st2 model_id record_id with
            | Except.ok r => (Except.ok r, st2)
            | Except.error e => (Except.error (("Failed to update record: ") ++ e), st2)

/-- Embedding of `DynamicDataService.delete_record`
(`src/service/dynamic_data_service.py`, lines 136-155). -/
def delete_record (st : SysState) (model_id : Nat) (record_id : Nat) :
    Except String Bool × SysState :=
  match get_model st model_id with
  | none => (Except.error ("Failed to delete record: Dynamic model not found"), st)
  | some m =>
    let tn := physTableName m.table_name
    match st.phys.lookup tn with
    | none => (Except.error (("Failed to delete record: no such table: ") ++ tn), st)
    | some t =>
      let hit := (t.rows.find? (fun r => r.id == record_id)).isSome
      let t2 : PhysTable := { t with rows := t.rows.filter (fun r => r.id != record_id) }
      (Except.ok hit, { st with phys := updatePhys st.phys tn t2 })

end DynamicDataService

/-! ## HTTP layer (`src/api/dynamic_models.py`)

Each endpoint body is a `try` block; `except ValueError` maps a service
`ValueError` to HTTP 400 with `detail=str(e)`, and the final
`except Exception` maps anything else to a 500 with a fixed message.
`fastapi.HTTPException` derives from `Exception`, so an
`HTTPException(404)` raised INSIDE such a `try` block is swallowed by the
final handler and surfaces as that 500. -/

/-- Outcome of an endpoint call: a 200 body, or an HTTP error with its
status code and `detail` string. -/
inductive ApiOutcome (α : Type) where
  | ok (value : α) : ApiOutcome α
  | err (status : Nat) (detail : String) : ApiOutcome α

def ApiOutcome.statusCode : ApiOutcome α → Nat
  | ApiOutcome.ok _ => 200
  | ApiOutcome.err s _ => s

namespace api

open DynamicModelService DynamicDataService

/-- Endpoint `POST /models/{model_id}/data` (`create_dynamic_data`,
`src/api/dynamic_models.py`, lines 101-116): a service `ValueError`
becomes a 400. -/
def create_dynamic_data (st : SysState) (model_id : Nat)
    (data : List (String × Json)) :
    ApiOutcome (Option (List (String × Json))) × SysState :=
  match create_record st model_id data with
  | (Except.ok r, st2) => (ApiOutcome.ok r, st2)
  | (Except.error e, st2) => (ApiOutcome.err 400 e, st2)

/-- Endpoint `GET /models/{model_id}/data` (`get_dynamic_data`, lines
118-134). -/
def get_dynamic_data (st : SysState) (model_id : Nat) (skip limit : Nat) :
    ApiOutcome (List (List (String × Json))) :=
  match get_all_records st model_id skip limit with
  | Except.ok rs => ApiOutcome.ok rs
  | Except.error e => ApiOutcome.err 400 e

/-- Endpoint `GET /models/{model_id}/data/{record_id}`
(`get_dynamic_record`, lines 136-153).  The `HTTPException(404, "Record
not found")` raised for an absent record inside the `try` block is caught
by `except Exception` and re-surfaced as a 500. -/
def get_dynamic_record (st : SysState) (model_id : Nat) (record_id : Nat) :
    ApiOutcome (List (String × Json)) :=
  match DynamicDataService.get_record st model_id record_id with
  | Except.error e => ApiOutcome.err 400 e
  | Except.ok none => ApiOutcome.err 500 ("Unable to retrieve record")
  | Except.ok (some r) => ApiOutcome.ok r

/-- Endpoint `PUT /models/{model_id}/data/{record_id}`
(`update_dynamic_record`, lines 155-173); the not-found 404 is likewise
swallowed into a 500. -/
def update_dynamic_record (st : SysState) (model_id : Nat) (record_id : Nat)
    (data : List (String × Json)) :
    ApiOutcome (List (String × Json)) × SysState :=
  match update_record st model_id record_id data with
  | (Except.error e, st2) => (ApiOutcome.err 400 e, st2)
  | (Except.ok none, st2) => (ApiOutcome.err 500 ("Unable to update record"), st2)
  | (Except.ok (some r), st2) => (ApiOutcome.ok r, st2)

/-- Endpoint `DELETE /models/{model_id}/data/{record_id}`
(`delete_dynamic_record`, lines 175-192); the not-found 404 is likewise
swallowed into a 500. -/
def delete_dynamic_record (st : SysState) (model_id : Nat) (record_id : Nat) :
    ApiOutcome String × SysState :=
  match delete_record st model_id record_id with
  | (Except.error e, st2) => (ApiOutcome.err 400 e, st2)
  | (Except.ok false, st2) => (ApiOutcome.err 500 ("Unable to delete record"), st2)
  | (Except.ok true, st2) => (ApiOutcome.ok ("Record deleted successfully"), st2)

/-- Endpoint `GET /models` (`get_dynamic_models`, lines 38-52): returns
the service's list (which filters on `is_active`) with its length. -/
def get_dynamic_models (st : SysState) :
    ApiOutcome (List DynamicModelRow × Nat) :=
  let models := get_all_dynamic_models st
  ApiOutcome.ok (models, models.length)

end api

/-! ## Concrete states used by counterexamples and witnesses -/

/-- The empty system state: no models, no tables. -/
def emptyState : SysState :=
  { models := [], field_rows := [], next_model_id := 1, next_field_id := 1,
    meta_tables := [], phys := [], now := 0 }

/-- A registered model resembling the spec's concrete scenario. -/
def exModelInv : DynamicModelRow :=
  { id := 1, name := ("invoice"), table_name := ("invoice"),
    description := none, is_active := true }

/-- An optional float field declared first on `exModelInv`. -/
def exFieldAmount : DynamicFieldRow :=
  { id := 1, name := ("amount"), field_type := ("float"), is_required := false,
    is_unique := false, default_value := none, max_length := none,
    field_order := 0, validation_rules := none, model_id := 1 }

/-- A required integer field declared second on `exModelInv`. -/
def exFieldQty : DynamicFieldRow :=
  { id := 2, name := ("qty"), field_type := ("integer"), is_required := true,
    is_unique := false, default_value := none, max_length := none,
    field_order := 1, validation_rules := none, model_id := 1 }

/-- The materialized (empty) table of `exModelInv`. -/
def exTable : PhysTable :=
  { columns := [("amount"), ("qty")], next_id := 1, rows := [] }

/-- State with `exModelInv` registered and materialized. -/
def exState : SysState :=
  { models := [exModelInv], field_rows := [exFieldAmount, exFieldQty],
    next_model_id := 2, next_field_id := 3,
    meta_tables := [physTableName ("invoice")],
    phys := [(physTableName ("invoice"), exTable)], now := 0 }

/-- A registered but inactive model. -/
def exModelOff : DynamicModelRow :=
  { id := 7, name := ("archive"), table_name := ("archive"),
    description := none, is_active := false }

/-- State whose only model is inactive. -/
def stInactive : SysState :=
  { models := [exModelOff], field_rows := [], next_model_id := 8,
    next_field_id := 1, meta_tables := [physTableName ("archive")],
    phys := [(physTableName ("archive"), { columns := [], next_id := 1, rows := [] })],
    now := 0 }

/-! ## C7: value coercion rules -/

/-- Claim C7: value coercion follows the fixed per-type rules of
`_convert_value`: native booleans pass through; boolean strings coerce
through the case-insensitive `true/1/yes/on` membership test with every
other string giving `false`; integer and float fields parse numerically
and turn unparseable input into the `Invalid value for field type ...`
`ValueError` rather than a crash; a json field passes native structured
values through unchanged and parses strings with `json.loads`, failing on
malformed JSON; string, text and datetime values pass through as
strings. -/
theorem C7_convert_value_rules :
    (∀ b, _convert_value (Json.b b) ("boolean") = Except.ok (Json.b b)) ∧
    (∀ s, _convert_value (Json.s s) ("boolean") =
      Except.ok (Json.b ([("true"), ("1"), ("yes"), ("on")].contains (pyLower s)))) ∧
    (∀ s n, pyParseInt s = some n →
      _convert_value (Json.s s) ("integer") = Except.ok (Json.i n)) ∧
    (∀ s q, pyParseFloat s = some q →
      _convert_value (Json.s s) ("float") = Except.ok (Json.f q)) ∧
    (∀ s, pyParseInt s = none → _convert_value (Json.s s) ("integer") =
      Except.error (("Invalid value for field type integer: ") ++ s)) ∧
    (∀ s, pyParseFloat s = none → _convert_value (Json.s s) ("float") =
      Except.error (("Invalid value for field type float: ") ++ s)) ∧
    (_convert_value (Json.s ("abc")) ("integer") =
      Except.error ("Invalid value for field type integer: abc")) ∧
    (_convert_value (Json.s ("abc")) ("float") =
      Except.error ("Invalid value for field type float: abc")) ∧
    (∀ xs, _convert_value (Json.arr xs) ("json") = Except.ok (Json.arr xs)) ∧
    (∀ kvs, _convert_value (Json.obj kvs) ("json") = Except.ok (Json.obj kvs)) ∧
    (∀ s v, json_loads s = Except.ok v →
      _convert_value (Json.s s) ("json") = Except.ok v) ∧
    (∀ s e, json_loads s = Except.error e → _convert_value (Json.s s) ("json") =
      Except.error (("Invalid value for field type json: ") ++ s)) ∧
    (_convert_value (Json.s ("[1, 2]")) ("json") =
      Except.ok (Json.arr [Json.i 1, Json.i 2])) ∧
    (_convert_value (Json.s ("[1, 2")) ("json") =
      Except.error ("Invalid value for field type json: [1, 2")) ∧
    (∀ s, _convert_value (Json.s s) ("string") = Except.ok (Json.s s)) ∧
    (∀ s, _convert_value (Json.s s) ("text") = Except.ok (Json.s s)) ∧
    (∀ s, _convert_value (Json.s s) ("datetime") = Except.ok (Json.s s)) := by
  refine ⟨fun b => rfl, fun s => rfl, ?_, ?_, ?_, ?_, rfl, rfl,
    fun xs => rfl, fun kvs => rfl, ?_, ?_, rfl, rfl, fun s => rfl, fun s => rfl, fun s => rfl⟩
  · intro s n h
    simp only [_convert_value, pyIntOf, h]
    rfl
  · intro s q h
    simp only [_convert_value, pyFloatOf, h]
    rfl
  · intro s h
    simp only [_convert_value, pyIntOf, h]
    rfl
  · intro s h
    simp only [_convert_value, pyFloatOf, h]
    rfl
  · intro s v h
    simp only [_convert_value, h]
    rfl
  · intro s e h
    simp only [_convert_value, h]
    rfl

/-- Witness for C7: the hypothesis-bearing conjuncts applied at concrete
inputs (the integer parse of the string `42`). -/
theorem C7_witness :
    pyParseInt ("42") = some 42 ∧
    _convert_value (Json.s ("42")) ("integer") = Except.ok (Json.i 42) :=
  ⟨by rfl, C7_convert_value_rules.2.2.1 ("42") 42 (by rfl)⟩

/-! ## C4: listing models -/

/-- Claim C4 counterexample: `stInactive` registers the model
`exModelOff` with `is_active = false`, and `get_all_dynamic_models`
omits it, so the list-models operation does NOT return every registered
model regardless of `is_active`. -/
theorem C4_counterexample :
    stInactive.models = [exModelOff] ∧
    exModelOff.is_active = false ∧
    DynamicModelService.get_all_dynamic_models stInactive = [] ∧
    api.get_dynamic_models stInactive = ApiOutcome.ok ([], 0) :=
  ⟨rfl, rfl, rfl, rfl⟩

/-- Claim C4, amended: the list-models operation behind `GET /models`
returns exactly the registered models whose `is_active` flag is true
(the service filters on `DynamicModel.is_active == True`), each with its
nested fields; inactive models are omitted. -/
theorem C4_list_models_active_only :
    ∀ (st : SysState) (m : DynamicModelRow),
      m ∈ DynamicModelService.get_all_dynamic_models st ↔
        m ∈ st.models ∧ m.is_active = true := by
  intro st m
  simp [DynamicModelService.get_all_dynamic_models, List.mem_filter]

/-! ## C3: record operations against a missing model -/

/-- Claim C3 counterexample: with no model registered, the record
endpoints surface the service's `Dynamic model not found` `ValueError`
as HTTP 400 (the routers' `except ValueError` branch), not as the 404
the claim requires. -/
theorem C3_counterexample :
    (api.create_dynamic_data emptyState 1 []).1 =
      ApiOutcome.err 400 ("Failed to create record: Dynamic model not found") ∧
    ((api.create_dynamic_data emptyState 1 []).1.statusCode = 400) ∧
    api.get_dynamic_data emptyState 1 0 100 =
      ApiOutcome.err 400 ("Failed to get records: Dynamic model not found") :=
  ⟨rfl, rfl, rfl⟩

/-- Claim C3, amended: every record operation invoked with a model id
that is not registered fails with the `Dynamic model not found` error,
reported to the caller as HTTP 400 (never a 404 and never an empty
result); in particular listing records of an unregistered (for example
deleted) model returns this 400 error rather than an empty list. -/
theorem C3_missing_model_yields_400 (st : SysState) (mid : Nat)
    (h : DynamicDataService.get_model st mid = none) :
    ∀ (data : List (String × Json)) (rid skip limit : Nat),
      (api.create_dynamic_data st mid data).1 =
        ApiOutcome.err 400 ("Failed to create record: Dynamic model not found") ∧
      api.get_dynamic_data st mid skip limit =
        ApiOutcome.err 400 ("Failed to get records: Dynamic model not found") ∧
      api.get_dynamic_record st mid rid =
        ApiOutcome.err 400 ("Failed to get record: Dynamic model not found") ∧
      (api.update_dynamic_record st mid rid data).1 =
        ApiOutcome.err 400 ("Failed to update record: Dynamic model not found") ∧
      (api.delete_dynamic_record st mid rid).1 =
        ApiOutcome.err 400 ("Failed to delete record: Dynamic model not found") := by
  intro data rid skip limit
  refine ⟨?_, ?_, ?_, ?_, ?_⟩
  · simp [api.create_dynamic_data, DynamicDataService.create_record, h]
  · simp [api.get_dynamic_data, DynamicDataService.get_all_records, h]
  · simp [api.get_dynamic_record, DynamicDataService.get_record, h]
  · simp [api.update_dynamic_record, DynamicDataService.update_record, h]
  · simp [api.delete_dynamic_record, DynamicDataService.delete_record, h]

/-- Witness for the amended C3 at the empty state. -/
theorem C3_witness :
    DynamicDataService.get_model emptyState 1 = none ∧
    api.get_dynamic_data emptyState 1 0 100 =
      ApiOutcome.err 400 ("Failed to get records: Dynamic model not found") :=
  ⟨rfl, (C3_missing_model_yields_400 emptyState 1 rfl [] 1 0 100).2.1⟩

/-! ## C10: field-less updates -/

/-- When every declared field reads as `None` from the payload, update
validation skips all fields and returns the empty dict. -/
theorem validate_skip_all_none (fields : List DynamicFieldRow)
    (data : List (String × Json)) (h : ∀ f ∈ fields, pyGet data f.name = none) :
    DynamicDataService._validate_data fields data true = Except.ok [] := by
  induction fields with
  | nil => rfl
  | cons g rest ih =>
    have hg := h g (List.mem_cons_self g rest)
    simp only [DynamicDataService._validate_data, hg, Bool.not_true, Bool.and_false,
      Bool.false_eq_true, if_false]
    exact ih (fun f hf => h f (List.mem_cons_of_mem _ hf))

/-- Claim C10: an `update_record` call on an existing model whose payload
contains no declared field with a non-null value validates to the empty
dict, the generated SET clause has a dangling comma
(`SET , updated_at = :updated_at`), and the call therefore raises
(surfacing the SQL syntax error as a `ValueError`) instead of merely
refreshing `updated_at`; the state (in particular, the row) is untouched. -/
theorem C10_fieldless_update_always_errors (st : SysState) (mid : Nat)
    (m : DynamicModelRow) (hm : DynamicDataService.get_model st mid = some m)
    (data : List (String × Json)) (rid : Nat)
    (h : ∀ f ∈ DynamicDataService.modelFields st m, pyGet data f.name = none) :
    DynamicDataService._validate_data (DynamicDataService.modelFields st m) data true =
      Except.ok [] ∧
    DynamicDataService.updateSetFragment [] = ("SET , updated_at = :updated_at") ∧
    (DynamicDataService.update_record st mid rid data).1 =
      Except.error ("Failed to update record: near \x22,\x22: syntax error") ∧
    (DynamicDataService.update_record st mid rid data).2 = st := by
  have hv := validate_skip_all_none _ data h
  refine ⟨hv, rfl, ?_, ?_⟩ <;>
    simp [DynamicDataService.update_record, hm, hv]

/-- Witness for C10: a field-less update against the concrete state. -/
theorem C10_witness :
    DynamicDataService.get_model exState 1 = some exModelInv ∧
    (DynamicDataService.update_record exState 1 1 []).1 =
      Except.error ("Failed to update record: near \x22,\x22: syntax error") :=
  ⟨rfl, (C10_fieldless_update_always_errors exState 1 exModelInv rfl [] 1
    (fun f _ => rfl)).2.2.1⟩

/-! ## C1: create-model with failing materialization -/

/-- The registry row that `create_dynamic_model` inserts for a creation
payload (fresh id from the model-id sequence). -/
def newModelRow (st : SysState) (md : DynamicModelCreate) : DynamicModelRow :=
  { id := st.next_model_id, name := md.name, table_name := md.table_name,
    description := md.description, is_active := md.is_active }

/-- Claim C1 (the code violates it): when the registry insert commits and
the physical `CREATE TABLE` then fails, `create_dynamic_model` raises, but
the registry still holds the freshly committed model and field rows (the
handler's `db.rollback()` runs after `db.commit()` and undoes nothing, and
no compensating delete exists), while no physical table was created. -/
theorem C1_materialization_failure_leaves_registry (st : SysState)
    (md : DynamicModelCreate)
    (hdup : st.models.any
      (fun m => m.name == md.name || m.table_name == md.table_name) = false)
    (hmeta : st.meta_tables.contains (physTableName md.table_name) = false) :
    (DynamicModelService.create_dynamic_model st md true).1 =
      Except.error ("Failed to create dynamic model: database error during CREATE TABLE") ∧
    (DynamicModelService.create_dynamic_model st md true).2.models =
      st.models ++ [newModelRow st md] ∧
    (DynamicModelService.create_dynamic_model st md true).2.field_rows =
      st.field_rows ++
        DynamicModelService.buildFieldRows st.next_field_id st.next_model_id md.fields ∧
    (DynamicModelService.create_dynamic_model st md true).2.phys = st.phys := by
  have hmem : physTableName md.table_name ∉ st.meta_tables := by
    simpa using hmeta
  refine ⟨?_, ?_, ?_, ?_⟩ <;>
    simp [DynamicModelService.create_dynamic_model,
      DynamicModelService._create_database_table, hdup, hmem, newModelRow]

/-- Witness for C1: creating a model in the empty state with the
materialization step failing leaves the model registered and no table. -/
theorem C1_witness :
    (DynamicModelService.create_dynamic_model emptyState
        { name := ("invoice"), table_name := ("invoice"), fields := [] } true).2.models =
      [newModelRow emptyState { name := ("invoice"), table_name := ("invoice"), fields := [] }] ∧
    (DynamicModelService.create_dynamic_model emptyState
        { name := ("invoice"), table_name := ("invoice"), fields := [] } true).2.phys = [] := by
  have h := C1_materialization_failure_leaves_registry emptyState
    { name := ("invoice"), table_name := ("invoice"), fields := [] } rfl rfl
  exact ⟨h.2.1, h.2.2.2⟩

/-! ## C2: model deletion atomicity -/

theorem lookup_filter_self_none (l : List (String × PhysTable)) (k : String) :
    (l.filter (fun p => p.1 != k)).lookup k = none := by
  induction l with
  | nil => rfl
  | cons p rest ih =>
    by_cases hp : p.1 = k
    · simp [List.filter_cons, hp, ih]
    · have hke : (k == p.1) = false := by
        simp [Ne.symm hp]
      simp [List.filter_cons, hp, ih, List.lookup, hke]

/-- Claim C2 counterexample: in `exState` (one registered, materialized
model), a delete in which the `DROP TABLE` commits but the registry
delete then fails returns `False` with the physical table gone and the
registry rows still present -- neither "both gone" nor "neither
changed", so deletion is not all-or-nothing. -/
theorem C2_counterexample :
    (DynamicModelService.delete_dynamic_model exState 1 false true).1 = false ∧
    (DynamicModelService.delete_dynamic_model exState 1 false true).2.models = [exModelInv] ∧
    (DynamicModelService.delete_dynamic_model exState 1 false true).2.field_rows =
      [exFieldAmount, exFieldQty] ∧
    (DynamicModelService.delete_dynamic_model exState 1 false true).2.phys = [] ∧
    exState.phys ≠ [] := by
  refine ⟨rfl, rfl, rfl, rfl, ?_⟩
  simp [exState]

/-- Claim C2, amended: deletion drops the table first and deletes the
registry rows second, so when the physical DROP fails nothing has changed
(the model stays listed, allowing a retry, and the call returns `False`),
and when the call returns `True` the registry rows and the physical table
are both gone; but the operation is not all-or-nothing, because a
registry-delete failure after the successful drop leaves the table gone
while the registry rows remain. -/
theorem C2_delete_drop_first_then_registry (st : SysState) (mid : Nat)
    (m : DynamicModelRow)
    (hm : DynamicModelService.get_dynamic_model_by_id st mid = some m) :
    (∀ rf, DynamicModelService.delete_dynamic_model st mid true rf = (false, st)) ∧
    (∀ df rf, (DynamicModelService.delete_dynamic_model st mid df rf).1 = true →
      ((DynamicModelService.delete_dynamic_model st mid df rf).2.models.find?
          (fun x => x.id == mid) = none ∧
        (DynamicModelService.delete_dynamic_model st mid df rf).2.phys.lookup
          (physTableName m.table_name) = none ∧
        (DynamicModelService.delete_dynamic_model st mid df rf).2.field_rows.filter
          (fun f => f.model_id == m.id) = [])) := by
  have hid : m.id = mid := by
    have := List.find?_some hm
    simpa using this
  constructor
  · intro rf
    simp [DynamicModelService.delete_dynamic_model, hm]
  · intro df rf h1
    cases df with
    | true =>
      have hfail : (DynamicModelService.delete_dynamic_model st mid true rf).1 = false := by
        simp [DynamicModelService.delete_dynamic_model, hm]
      rw [hfail] at h1
      exact absurd h1 (by simp)
    | false =>
      cases rf with
      | true =>
        have hfail : (DynamicModelService.delete_dynamic_model st mid false true).1 = false := by
          simp [DynamicModelService.delete_dynamic_model, hm,
            DynamicModelService.drop_table_if_exists]
        rw [hfail] at h1
        exact absurd h1 (by simp)
      | false =>
        have hdel : DynamicModelService.delete_dynamic_model st mid false false =
            (true,
              { st with
                models := st.models.filter (fun x => x.id != m.id),
                field_rows := st.field_rows.filter (fun f => f.model_id != m.id),
                phys := st.phys.filter (fun p => p.1 != physTableName m.table_name) }) := by
          simp [DynamicModelService.delete_dynamic_model, hm,
            DynamicModelService.drop_table_if_exists]
        rw [hdel]
        refine ⟨?_, ?_, ?_⟩
        · rw [List.find?_eq_none]
          intro x hx
          rw [List.mem_filter] at hx
          have hne : x.id ≠ m.id := by simpa using hx.2
          simp [hid ▸ hne]
        · exact lookup_filter_self_none st.phys (physTableName m.table_name)
        · rw [List.filter_filter, List.filter_eq_nil_iff]
          intro f _
          simp

/-- Witness for the amended C2 at the concrete state. -/
theorem C2_witness :
    DynamicModelService.get_dynamic_model_by_id exState 1 = some exModelInv ∧
    DynamicModelService.delete_dynamic_model exState 1 true false = (false, exState) ∧
    (DynamicModelService.delete_dynamic_model exState 1 false false).2.phys.lookup
      (physTableName exModelInv.table_name) = none := by
  have h := C2_delete_drop_first_then_registry exState 1 exModelInv rfl
  exact ⟨rfl, h.1 false, (h.2 false false rfl).2.1⟩

/-! ## C5: missing required fields -/

/-- A declared field does not itself abort validation on this payload:
its value is absent and it is optional, or its present value coerces. -/
def fieldPasses (g : DynamicFieldRow) (data : List (String × Json)) : Prop :=
  match pyGet data g.name with
  | none => g.is_required = false
  | some v => ∃ cv, _convert_value v g.field_type = Except.ok cv

/-- Validation on create always fails when some declared required field
reads as `None` from the payload, whatever the other fields hold. -/
theorem validate_error_of_required_missing (fields : List DynamicFieldRow)
    (data : List (String × Json)) (f : DynamicFieldRow) (hf : f ∈ fields)
    (hreq : f.is_required = true) (habs : pyGet data f.name = none) :
    ∃ e, DynamicDataService._validate_data fields data false = Except.error e := by
  induction fields with
  | nil => cases hf
  | cons g rest ih =>
    rcases List.mem_cons.mp hf with hfg | hfr
    · subst hfg
      refine ⟨("Field \x27") ++ f.name ++ ("\x27 is required"), ?_⟩
      simp [DynamicDataService._validate_data, habs, hreq]
    · cases hpg : pyGet data g.name with
      | none =>
        cases hgr : g.is_required with
        | true =>
          refine ⟨("Field \x27") ++ g.name ++ ("\x27 is required"), ?_⟩
          simp [DynamicDataService._validate_data, hpg, hgr]
        | false =>
          obtain ⟨e, he⟩ := ih hfr
          refine ⟨e, ?_⟩
          simp [DynamicDataService._validate_data, hpg, hgr, he]
      | some v =>
        cases hcv : _convert_value v g.field_type with
        | error e =>
          refine ⟨e, ?_⟩
          simp [DynamicDataService._validate_data, hpg, hcv]
        | ok cv =>
          obtain ⟨e, he⟩ := ih hfr
          refine ⟨e, ?_⟩
          simp [DynamicDataService._validate_data, hpg, hcv, he]

/-- When every field declared before the missing required field passes,
validation reports exactly the `Field '<name>' is required` error. -/
theorem validate_names_first_missing (pre : List DynamicFieldRow)
    (f : DynamicFieldRow) (post : List DynamicFieldRow)
    (data : List (String × Json)) (hreq : f.is_required = true)
    (habs : pyGet data f.name = none)
    (hpre : ∀ g ∈ pre, fieldPasses g data) :
    DynamicDataService._validate_data (pre ++ f :: post) data false =
      Except.error (("Field \x27") ++ f.name ++ ("\x27 is required")) := by
  induction pre with
  | nil =>
    simp [DynamicDataService._validate_data, habs, hreq]
  | cons g pre' ih =>
    have hg := hpre g (List.mem_cons_self g pre')
    have hrest := ih (fun g' hg' => hpre g' (List.mem_cons_of_mem _ hg'))
    cases hpg : pyGet data g.name with
    | none =>
      have hgr : g.is_required = false := by
        simpa [fieldPasses, hpg] using hg
      simp [DynamicDataService._validate_data, hpg, hgr, hrest]
    | some v =>
      have hg2 : ∃ cv, _convert_value v g.field_type = Except.ok cv := by
        simpa [fieldPasses, hpg] using hg
      obtain ⟨cv, hcv⟩ := hg2
      simp [DynamicDataService._validate_data, hpg, hcv, hrest]

/-- Claim C5, amended: for every model and every required field absent
from the payload, `create_record` fails with a `ValueError` before any
write (the state is unchanged); the error names the missing field
provided that every field declared before it passes validation itself --
when an earlier declared field carries an uncoercible value (or is itself
required and absent), that earlier field's error is raised instead, so
the particular message is not independent of the other fields. -/
theorem C5_required_missing_fails (st : SysState) (mid : Nat)
    (m : DynamicModelRow) (hm : DynamicDataService.get_model st mid = some m)
    (f : DynamicFieldRow) (hf : f ∈ DynamicDataService.modelFields st m)
    (hreq : f.is_required = true) (data : List (String × Json))
    (habs : pyGet data f.name = none) :
    (∃ e, DynamicDataService._validate_data (DynamicDataService.modelFields st m)
      data false = Except.error e) ∧
    (∃ e, (DynamicDataService.create_record st mid data).1 = Except.error e) ∧
    (DynamicDataService.create_record st mid data).2 = st ∧
    (∀ pre post, DynamicDataService.modelFields st m = pre ++ f :: post →
      (∀ g ∈ pre, fieldPasses g data) →
      DynamicDataService._validate_data (DynamicDataService.modelFields st m)
        data false = Except.error (("Field \x27") ++ f.name ++ ("\x27 is required"))) := by
  obtain ⟨e, he⟩ := validate_error_of_required_missing _ data f hf hreq habs
  refine ⟨⟨e, he⟩, ⟨("Failed to create record: ") ++ e, ?_⟩, ?_, ?_⟩
  · simp [DynamicDataService.create_record, hm, he]
  · simp [DynamicDataService.create_record, hm, he]
  · intro pre post heq hpre
    rw [heq]
    exact validate_names_first_missing pre f post data hreq habs hpre

/-- Claim C5 counterexample to the "naming" part as frozen: on
`exModelInv` the required field `qty` is absent, but because the earlier
declared optional field `amount` holds the uncoercible string `abc`, the
raised error is the coercion error for `amount` -- a `ValueError`, but
one that does not name `qty`, so the naming is not independent of the
validity of the other fields. -/
theorem C5_counterexample :
    exFieldQty.is_required = true ∧
    pyGet [(("amount"), Json.s ("abc"))] exFieldQty.name = none ∧
    DynamicDataService._validate_data [exFieldAmount, exFieldQty]
      [(("amount"), Json.s ("abc"))] false =
      Except.error ("Invalid value for field type float: abc") ∧
    ("Invalid value for field type float: abc") ≠ ("Field \x27qty\x27 is required") := by
  refine ⟨rfl, rfl, rfl, ?_⟩
  decide

/-- Witness for the amended C5 at the concrete state: with an empty
payload the earlier field passes and the error names `qty`. -/
theorem C5_witness :
    exFieldQty.is_required = true ∧
    pyGet ([] : List (String × Json)) exFieldQty.name = none ∧
    (∃ e, (DynamicDataService.create_record exState 1 []).1 = Except.error e) ∧
    DynamicDataService._validate_data (DynamicDataService.modelFields exState exModelInv)
      [] false = Except.error ("Field \x27qty\x27 is required") := by
  have h := C5_required_missing_fails exState 1 exModelInv rfl exFieldQty
    (List.mem_cons_of_mem _ (List.mem_cons_self _ _)) rfl [] rfl
  refine ⟨rfl, rfl, h.2.1, ?_⟩
  have hpre : ∀ g ∈ [exFieldAmount], fieldPasses g ([] : List (String × Json)) := by
    intro g hg
    rcases List.mem_singleton.mp hg with rfl
    exact (rfl : exFieldAmount.is_required = false)
  exact h.2.2.2 [exFieldAmount] [] rfl hpre

/-! ## C6: materializer idempotency -/

/-- The creation schema of the `amount` field. -/
def exFCAmount : DynamicFieldCreate :=
  { name := ("amount"), field_type := ("float") }

/-- Claim C6 counterexample: the first materializer call for
`exModelInv` succeeds, but the second call for the same model raises --
the dynamically created declarative class registers `dynamic_invoice` in
the shared `Base.metadata`, and a second registration fails before
`checkfirst` is ever consulted.  So create is not idempotent under
retry. -/
theorem C6_counterexample :
    (DynamicModelService._create_database_table emptyState exModelInv
      [exFCAmount] false).1 = Except.ok () ∧
    (DynamicModelService._create_database_table
      (DynamicModelService._create_database_table emptyState exModelInv
        [exFCAmount] false).2
      exModelInv [exFCAmount] false).1 =
      Except.error ("Table \x27dynamic_invoice\x27 is already defined for this MetaData instance") :=
  ⟨rfl, rfl⟩

/-- Claim C6, amended: the drop side is idempotent (dropping twice, or
dropping an absent table, is a no-op `DROP TABLE IF EXISTS`), and the
physical `CREATE TABLE` itself is guarded by `checkfirst=True` (an
existing physical table is skipped, leaving exactly one definition); but
calling the materializer twice for the same model within one process
raises, because the second dynamically created class collides with the
table already registered in the shared metadata, leaving the state
unchanged. -/
theorem C6_materializer_idempotency :
    (∀ st tn, DynamicModelService.drop_table_if_exists
        (DynamicModelService.drop_table_if_exists st tn) tn =
        DynamicModelService.drop_table_if_exists st tn) ∧
    (∀ st m fields fails,
      st.meta_tables.contains (physTableName m.table_name) = true →
      (DynamicModelService._create_database_table st m fields fails).1 =
        Except.error (("Table \x27") ++ physTableName m.table_name ++
          ("\x27 is already defined for this MetaData instance")) ∧
      (DynamicModelService._create_database_table st m fields fails).2 = st) ∧
    (∀ st m fields,
      st.meta_tables.contains (physTableName m.table_name) = false →
      (st.phys.lookup (physTableName m.table_name)).isSome = true →
      (DynamicModelService._create_database_table st m fields false).1 =
        Except.ok () ∧
      (DynamicModelService._create_database_table st m fields false).2.phys =
        st.phys) := by
  refine ⟨?_, ?_, ?_⟩
  · intro st tn
    simp [DynamicModelService.drop_table_if_exists, List.filter_filter]
  · intro st m fields fails h
    have hmem : physTableName m.table_name ∈ st.meta_tables := by
      simpa using h
    constructor <;> simp [DynamicModelService._create_database_table, hmem]
  · intro st m fields h hsome
    have hmem : physTableName m.table_name ∉ st.meta_tables := by
      simpa using h
    constructor <;> simp [DynamicModelService._create_database_table, hmem, hsome]

/-- Witness for the amended C6 at the concrete state (the metadata of
`exState` already holds `dynamic_invoice`, so the call raises and changes
nothing). -/
theorem C6_witness :
    exState.meta_tables.contains (physTableName exModelInv.table_name) = true ∧
    (DynamicModelService._create_database_table exState exModelInv
      [exFCAmount] false).2 = exState :=
  ⟨rfl, (C6_materializer_idempotency.2.1 exState exModelInv [exFCAmount] false rfl).2⟩

/-! ## C8: undeclared payload keys -/

theorem pyGet_cons_ne (k : String) (v : Json) (data : List (String × Json))
    (name : String) (h : (name == k) = false) :
    pyGet ((k, v) :: data) name = pyGet data name := by
  simp [pyGet, List.lookup, h]

/-- Validation reads the payload only at declared field names, so a
binding under any other key is invisible to it. -/
theorem validate_extra_key (fields : List DynamicFieldRow) (k : String)
    (v : Json) (data : List (String × Json)) (u : Bool)
    (hk : ∀ f ∈ fields, (f.name == k) = false) :
    DynamicDataService._validate_data fields ((k, v) :: data) u =
      DynamicDataService._validate_data fields data u := by
  induction fields with
  | nil => rfl
  | cons g rest ih =>
    have hg := hk g (List.mem_cons_self g rest)
    simp only [DynamicDataService._validate_data, pyGet_cons_ne k v data g.name hg,
      ih (fun f hf => hk f (List.mem_cons_of_mem _ hf))]

/-- Every key of a successful validation result is a declared field
name. -/
theorem validate_keys_declared (fields : List DynamicFieldRow)
    (data : List (String × Json)) (u : Bool)
    (validated : List (String × Json))
    (h : DynamicDataService._validate_data fields data u = Except.ok validated) :
    ∀ p ∈ validated, p.1 ∈ fields.map (fun f => f.name) := by
  induction fields generalizing validated with
  | nil =>
    simp only [DynamicDataService._validate_data, Except.ok.injEq] at h
    subst h
    intro p hp
    cases hp
  | cons g rest ih =>
    simp only [DynamicDataService._validate_data] at h
    cases hpg : pyGet data g.name with
    | none =>
      simp only [hpg] at h
      by_cases hgr : (g.is_required && !u) = true
      · rw [if_pos hgr] at h
        cases h
      · rw [if_neg hgr] at h
        intro p hp
        exact List.mem_cons_of_mem _ (ih validated h p hp)
    | some v0 =>
      simp only [hpg] at h
      cases hcv : _convert_value v0 g.field_type with
      | error e =>
        simp only [hcv] at h
        cases h
      | ok cv =>
        simp only [hcv] at h
        cases hrest : DynamicDataService._validate_data rest data u with
        | error e =>
          simp only [hrest] at h
          cases h
        | ok vs =>
          simp only [hrest] at h
          have hv : (g.name, cv) :: vs = validated := by
            simpa using h
          intro p hp
          rw [← hv] at hp
          rcases List.mem_cons.mp hp with hph | hpt
          · subst hph
            exact List.mem_cons_self _ _
          · exact List.mem_cons_of_mem _ (ih vs hrest p hpt)

theorem lookup_updatePhys (l : List (String × PhysTable)) (k : String)
    (v : PhysTable) (h : (l.lookup k).isSome = true) :
    (updatePhys l k v).lookup k = some v := by
  induction l with
  | nil => simp [List.lookup] at h
  | cons p rest ih =>
    obtain ⟨p1, p2⟩ := p
    by_cases hp : p1 = k
    · subst hp
      simp [updatePhys, List.lookup]
    · have hk1 : (p1 == k) = false := by simp [hp]
      have hk2 : (k == p1) = false := by simp [Ne.symm hp]
      simp only [List.lookup, hk2] at h
      simp only [updatePhys, List.map_cons, hk1, List.lookup, hk2]
      exact ih h

/-- Any record that `get_record` returns holds exactly the base columns
and the table's declared columns (given every stored row is keyed by the
table's columns). -/
theorem get_record_keys (st : SysState) (mid : Nat) (m : DynamicModelRow)
    (hm : DynamicDataService.get_model st mid = some m) (t : PhysTable)
    (ht : st.phys.lookup (physTableName m.table_name) = some t)
    (hrows : ∀ r ∈ t.rows, r.cols.map Prod.fst = t.columns)
    (rid : Nat) (rec : List (String × Json))
    (hok : DynamicDataService.get_record st mid rid = Except.ok (some rec)) :
    rec.map Prod.fst = ("id") :: ("created_at") :: ("updated_at") :: t.columns := by
  simp only [DynamicDataService.get_record, hm, ht] at hok
  cases hfind : t.rows.find? (fun r => r.id == rid) with
  | none =>
    simp only [hfind] at hok
    cases hok
  | some r =>
    simp only [hfind] at hok
    have hrec : DynamicDataService.rowToRecord r = rec := by
      simpa using hok
    rw [← hrec]
    simp [DynamicDataService.rowToRecord, hrows r (List.mem_of_find?_eq_some hfind)]

/-- The rows of the table after an insert are still keyed by the
declared columns. -/
theorem insertedTable_rows_wf (t : PhysTable) (now : Nat)
    (validated : List (String × Json))
    (hrows : ∀ r ∈ t.rows, r.cols.map Prod.fst = t.columns) :
    ∀ r ∈ (DynamicDataService.insertedTable t
        (DynamicDataService.insertedRow t now validated)).rows,
      r.cols.map Prod.fst =
        (DynamicDataService.insertedTable t
          (DynamicDataService.insertedRow t now validated)).columns := by
  intro r hr
  simp only [DynamicDataService.insertedTable] at hr ⊢
  rcases List.mem_append.mp hr with hold | hnew
  · exact hrows r hold
  · have hrn : r = DynamicDataService.insertedRow t now validated := by
      simpa using hnew
    subst hrn
    simp [DynamicDataService.insertedRow, Function.comp_def]

/-- The record read back after a successful insert holds exactly the
base columns and the table's declared columns (given every stored row is
keyed by the table's columns). -/
theorem create_record_stored_keys (st : SysState) (mid : Nat)
    (m : DynamicModelRow) (hm : DynamicDataService.get_model st mid = some m)
    (t : PhysTable) (ht : st.phys.lookup (physTableName m.table_name) = some t)
    (hrows : ∀ r ∈ t.rows, r.cols.map Prod.fst = t.columns)
    (data : List (String × Json)) (rec : List (String × Json))
    (hok : (DynamicDataService.create_record st mid data).1 = Except.ok (some rec)) :
    rec.map Prod.fst = ("id") :: ("created_at") :: ("updated_at") :: t.columns := by
  cases hval : DynamicDataService._validate_data
      (DynamicDataService.modelFields st m) data false with
  | error e =>
    simp [DynamicDataService.create_record, hm, hval] at hok
  | ok validated =>
    by_cases hemp : validated.isEmpty = true
    · simp [DynamicDataService.create_record, hm, hval, ht, hemp] at hok
    · simp only [DynamicDataService.create_record, hm, hval, ht, hemp,
        Bool.false_eq_true, if_false] at hok
      cases hget : DynamicDataService.get_record
          (DynamicDataService.afterInsert st (physTableName m.table_name) t
            (DynamicDataService.insertedRow t st.now validated))
          mid t.next_id with
      | error e =>
        simp only [hget] at hok
        cases hok
      | ok ro =>
        simp only [hget] at hok
        have hro : ro = some rec := by simpa using hok
        subst hro
        have hm2 : DynamicDataService.get_model
            (DynamicDataService.afterInsert st (physTableName m.table_name) t
              (DynamicDataService.insertedRow t st.now validated)) mid = some m := hm
        have ht2 : (DynamicDataService.afterInsert st (physTableName m.table_name) t
              (DynamicDataService.insertedRow t st.now validated)).phys.lookup
            (physTableName m.table_name) =
            some (DynamicDataService.insertedTable t
              (DynamicDataService.insertedRow t st.now validated)) :=
          lookup_updatePhys st.phys (physTableName m.table_name) _ (by simp [ht])
        have := get_record_keys _ mid m hm2 _ ht2
          (insertedTable_rows_wf t st.now validated hrows) t.next_id rec hget
        simpa [DynamicDataService.insertedTable] using this

/-- Claim C8: a payload key that names no declared field of the model is
silently ignored: validation and the whole create/update operations are
unchanged by such a binding, the validated dict only ever holds declared
field names, and a record read back after a successful create holds only
`id`, `created_at`, `updated_at` and the table's declared columns. -/
theorem C8_undeclared_keys_ignored (st : SysState) (mid : Nat)
    (m : DynamicModelRow) (hm : DynamicDataService.get_model st mid = some m)
    (k : String) (v : Json)
    (hk : ∀ f ∈ DynamicDataService.modelFields st m, (f.name == k) = false) :
    (∀ data u,
      DynamicDataService._validate_data (DynamicDataService.modelFields st m)
        ((k, v) :: data) u =
      DynamicDataService._validate_data (DynamicDataService.modelFields st m) data u) ∧
    (∀ data, DynamicDataService.create_record st mid ((k, v) :: data) =
      DynamicDataService.create_record st mid data) ∧
    (∀ data rid, DynamicDataService.update_record st mid rid ((k, v) :: data) =
      DynamicDataService.update_record st mid rid data) ∧
    (∀ data u validated,
      DynamicDataService._validate_data (DynamicDataService.modelFields st m)
        data u = Except.ok validated →
      ∀ p ∈ validated, p.1 ∈ (DynamicDataService.modelFields st m).map (fun f => f.name)) ∧
    (∀ t, st.phys.lookup (physTableName m.table_name) = some t →
      (∀ r ∈ t.rows, r.cols.map Prod.fst = t.columns) →
      ∀ data rec,
        (DynamicDataService.create_record st mid data).1 = Except.ok (some rec) →
        rec.map Prod.fst = ("id") :: ("created_at") :: ("updated_at") :: t.columns) := by
  refine ⟨?_, ?_, ?_, ?_, ?_⟩
  · intro data u
    exact validate_extra_key _ k v data u hk
  · intro data
    simp only [DynamicDataService.create_record, hm,
      validate_extra_key _ k v data false hk]
  · intro data rid
    simp only [DynamicDataService.update_record, hm,
      validate_extra_key _ k v data true hk]
  · intro data u validated h
    exact validate_keys_declared _ data u validated h
  · intro t ht hrows data rec hok
    exact create_record_stored_keys st mid m hm t ht hrows data rec hok

/-- Witness for C8: at the concrete state, a payload with the undeclared
key `color` behaves exactly like the payload without it. -/
theorem C8_witness :
    DynamicDataService.get_model exState 1 = some exModelInv ∧
    DynamicDataService.create_record exState 1
        [(("color"), Json.s ("red")), (("qty"), Json.i 5)] =
      DynamicDataService.create_record exState 1 [(("qty"), Json.i 5)] := by
  have hk : ∀ f ∈ DynamicDataService.modelFields exState exModelInv,
      (f.name == ("color")) = false := by
    have hfl : DynamicDataService.modelFields exState exModelInv =
        [exFieldAmount, exFieldQty] := rfl
    rw [hfl]
    intro f hf
    rcases List.mem_cons.mp hf with rfl | hf2
    · rfl
    · rcases List.mem_cons.mp hf2 with rfl | hf3
      · rfl
      · cases hf3
  have h := C8_undeclared_keys_ignored exState 1 exModelInv rfl ("color")
    (Json.s ("red")) hk
  exact ⟨rfl, h.2.1 [(("qty"), Json.i 5)]⟩

/-! ## C9: pagination -/

instance : IsTotal PhysRow (fun a b => b.id ≤ a.id) :=
  ⟨fun a b => Nat.le_total b.id a.id⟩

instance : IsTrans PhysRow (fun a b => b.id ≤ a.id) :=
  ⟨fun _ _ _ hab hbc => Nat.le_trans hbc hab⟩

theorem sortRowsDesc_sorted (rs : List PhysRow) :
    (DynamicDataService.sortRowsDesc rs).Pairwise (fun a b => b.id ≤ a.id) :=
  List.sorted_insertionSort _ rs

theorem sortRowsDesc_perm (rs : List PhysRow) :
    (DynamicDataService.sortRowsDesc rs).Perm rs :=
  List.perm_insertionSort _ rs

/-- A weakly descending row list with pairwise-distinct ids is strictly
descending. -/
theorem pairwise_lt_of_sorted_nodup (l : List PhysRow)
    (hs : l.Pairwise (fun a b => b.id ≤ a.id))
    (hnd : (l.map (fun r => r.id)).Nodup) :
    l.Pairwise (fun a b => b.id < a.id) := by
  induction l with
  | nil => exact List.Pairwise.nil
  | cons a l ih =>
    rcases List.pairwise_cons.mp hs with ⟨ha, hs2⟩
    simp only [List.map_cons, List.nodup_cons] at hnd
    refine List.Pairwise.cons ?_ (ih hs2 hnd.2)
    intro b hb
    exact lt_of_le_of_ne (ha b hb)
      (fun he => hnd.1 (he ▸ List.mem_map_of_mem (fun r => r.id) hb))

/-- The `id` column of a returned record. -/
def recId (rec : List (String × Json)) : Int :=
  match rec.lookup ("id") with
  | some (Json.i n) => n
  | _ => 0

theorem recId_rowToRecord (r : PhysRow) :
    recId (DynamicDataService.rowToRecord r) = (r.id : Int) := rfl

/-- Concatenating the pages `0, ..., p-1` of size `k` of a list is its
prefix of length `p * k`: consecutive pages neither overlap nor skip. -/
theorem range_bind_take_drop {α : Type} (l : List α) (k : Nat) :
    ∀ p, (List.range p).flatMap (fun i => (l.drop (i * k)).take k) = l.take (p * k) := by
  intro p
  induction p with
  | zero => simp
  | succ n ih =>
    rw [List.range_succ, List.flatMap_append, ih, Nat.succ_mul, List.take_add]
    simp

/-- Claim C9: listing records is deterministic pagination over the rows
sorted most-recent-first by id.  With `N` stored rows (distinct ids, as
the autoincrement key guarantees), there is one full listing `full` such
that the first page of size `k` has exactly `min k N` records, every
`(skip, limit)` call returns the corresponding contiguous slice of
`full` (so repeated calls agree), record ids strictly decrease, and the
concatenation of the pages of size `k` is a prefix of `full` -- no
overlap between consecutive pages and no record skipped. -/
theorem C9_pagination_deterministic (st : SysState) (mid : Nat)
    (m : DynamicModelRow) (hm : DynamicDataService.get_model st mid = some m)
    (t : PhysTable) (ht : st.phys.lookup (physTableName m.table_name) = some t)
    (hnd : (t.rows.map (fun r => r.id)).Nodup) :
    ∃ full,
      DynamicDataService.get_all_records st mid 0 t.rows.length = Except.ok full ∧
      full.length = t.rows.length ∧
      full.Pairwise (fun x y => recId y < recId x) ∧
      (∀ skip limit, DynamicDataService.get_all_records st mid skip limit =
        Except.ok ((full.drop skip).take limit)) ∧
      (∀ skip limit, ((full.drop skip).take limit).length =
        min limit (t.rows.length - skip)) ∧
      (∀ pages k, (List.range pages).flatMap
          (fun i => (full.drop (i * k)).take k) = full.take (pages * k)) := by
  have hlen : (DynamicDataService.sortRowsDesc t.rows).length = t.rows.length :=
    (sortRowsDesc_perm t.rows).length_eq
  refine ⟨(DynamicDataService.sortRowsDesc t.rows).map DynamicDataService.rowToRecord,
    ?_, ?_, ?_, ?_, ?_, ?_⟩
  · simp only [DynamicDataService.get_all_records, hm, ht, List.drop_zero]
    rw [← hlen, List.take_length]
  · simp [hlen]
  · have hnds : ((DynamicDataService.sortRowsDesc t.rows).map (fun r => r.id)).Nodup :=
      (((sortRowsDesc_perm t.rows).map (fun r => r.id)).nodup_iff).mpr hnd
    have hp := pairwise_lt_of_sorted_nodup _ (sortRowsDesc_sorted t.rows) hnds
    rw [List.pairwise_map]
    refine hp.imp ?_
    intro a b hab
    rw [recId_rowToRecord, recId_rowToRecord]
    exact_mod_cast hab
  · intro skip limit
    simp only [DynamicDataService.get_all_records, hm, ht]
    rw [List.map_take, List.map_drop]
  · intro skip limit
    simp [hlen]
  · intro pages k
    exact range_bind_take_drop _ k pages

/-- The three stored rows of the pagination witness. -/
def rowP1 : PhysRow :=
  { id := 1, created_at := 0, updated_at := none, cols := [(("amount"), Json.i 1)] }

def rowP2 : PhysRow :=
  { id := 2, created_at := 0, updated_at := none, cols := [(("amount"), Json.i 2)] }

def rowP3 : PhysRow :=
  { id := 3, created_at := 0, updated_at := none, cols := [(("amount"), Json.i 3)] }

def tPag : PhysTable :=
  { columns := [("amount")], next_id := 4, rows := [rowP1, rowP2, rowP3] }

/-- State with three records stored for `exModelInv`. -/
def stPag : SysState :=
  { models := [exModelInv], field_rows := [exFieldAmount], next_model_id := 2,
    next_field_id := 2, meta_tables := [physTableName ("invoice")],
    phys := [(physTableName ("invoice"), tPag)], now := 5 }

/-- Witness for C9: the pagination properties at a concrete three-row
table. -/
theorem C9_witness :
    DynamicDataService.get_model stPag 1 = some exModelInv ∧
    stPag.phys.lookup (physTableName exModelInv.table_name) = some tPag ∧
    (tPag.rows.map (fun r => r.id)).Nodup ∧
    (∃ full,
      DynamicDataService.get_all_records stPag 1 0 tPag.rows.length = Except.ok full ∧
      full.length = tPag.rows.length ∧
      full.Pairwise (fun x y => recId y < recId x) ∧
      (∀ skip limit, DynamicDataService.get_all_records stPag 1 skip limit =
        Except.ok ((full.drop skip).take limit)) ∧
      (∀ skip limit, ((full.drop skip).take limit).length =
        min limit (tPag.rows.length - skip)) ∧
      (∀ pages k, (List.range pages).flatMap
          (fun i => (full.drop (i * k)).take k) = full.take (pages * k))) :=
  ⟨rfl, rfl, by decide,
    C9_pagination_deterministic stPag 1 exModelInv rfl tPag rfl (by decide)⟩

end FastapiTemplate
